import Mathlib

/-!
Verification of the cocktail-bot repository (`Untitled-1.py`, `database.py`)
against its natural-language specification.

The Python code is shallowly embedded: dictionaries become insertion-ordered
association lists (`setdefault` appends on a fresh key), the SQLite tables
become pure state values threaded through the operations, and the Telegram
platform calls of the media delivery engine become an environment of
per-attempt outcomes plus an event trace.
-/

/-! ## Catalog data model

The static catalog module `cocktails_data` provides, per the code's uses:
`ALCOHOLIC_COCKTAILS` and `NON_ALCOHOLIC_COCKTAILS` as lists of
`(slug, label)` pairs, `COCKTAIL_DETAILS` as a dict `slug -> details`,
and `COCKTAIL_VIDEOS` as a dict `slug -> str or Path`.
-/

/-- Details dict of one cocktail (`COCKTAIL_DETAILS[slug]`).  A missing
`"title"` key is modelled as `title = ""` (the code reads it with
`details.get("title", "")` when indexing). -/
structure Details where
  title : String
  ingredients : List String
  method : String
  garnish : Option String := none
  note : Option String := none
deriving Repr, DecidableEq

/-! Python string primitives, embedded character-wise so that the kernel can
evaluate them (`String.toLower` and friends are defined by well-founded
recursion over byte positions and do not reduce). -/

/-- Python `str.lower()` (character-wise lowering). -/
def pyLower (s : String) : String := String.mk (s.data.map Char.toLower)

/-- Python `str.strip()`: drop whitespace from both ends. -/
def pyTrim (s : String) : String :=
  String.mk (((s.data.dropWhile Char.isWhitespace).reverse.dropWhile
    Char.isWhitespace).reverse)

/-- Python `str.startswith(pre)`. -/
def pyStartsWith (s pre : String) : Bool := decide (pre.data <+: s.data)

/-- Python `slug.replace("_", " ")` — a single-character pattern, so the
replacement is a character map. -/
def replaceUnderscores (s : String) : String :=
  String.mk (s.data.map (fun c => if c = '_' then ' ' else c))

/-- Insertion-ordered dictionary `NAME_TO_SLUG : dict[str, str]`. -/
abbrev NameIndex := List (String × String)

/-- Dictionary lookup `NAME_TO_SLUG.get(k)`: first pair with the key. -/
def lookupIdx (idx : NameIndex) (k : String) : Option String :=
  (idx.find? (fun p => p.1 == k)).map (fun p => p.2)

/-- Python `dict.setdefault k v`: keep the dict if the key is present,
otherwise append the new pair (insertion order). -/
def setdefault (idx : NameIndex) (k v : String) : NameIndex :=
  match lookupIdx idx k with
  | some _ => idx
  | none => idx ++ [(k, v)]

/-- `_normalize_name`: `text.strip().lower()`. -/
def normalize_name (text : String) : String := pyLower (pyTrim text)

/-- `_register_name(name, slug)`: skip empty names, else `setdefault` the
normalized name. -/
def register_name (idx : NameIndex) (name slug : String) : NameIndex :=
  if name = "" then idx else setdefault idx (normalize_name name) slug

/-- `build_name_index()`: clear the index, register label and
underscore-to-space slug variant for every category pair, then every
details title, then the quick keyboard entry `("1", " ")`. -/
def build_name_index (alc nonalc : List (String × String))
    (details : List (String × Details)) : NameIndex :=
  let idx1 := (alc ++ nonalc).foldl
    (fun i p => register_name (register_name i p.2 p.1) (replaceUnderscores p.1) p.1)
    ([] : NameIndex)
  let idx2 := details.foldl (fun i p => register_name i p.2.title p.1) idx1
  register_name idx2 "1" " "

/-- `find_cocktail_slug(user_input)`: `None` on empty input; lazily build the
index when it is empty; return the normalized lookup.  The post-call index
state is returned alongside the result (the Python global). -/
def find_cocktail_slug (idx : NameIndex) (alc nonalc : List (String × String))
    (details : List (String × Details)) (user_input : String) :
    Option String × NameIndex :=
  if user_input = "" then (none, idx)
  else
    let idx2 := if idx.isEmpty then build_name_index alc nonalc details else idx
    (lookupIdx idx2 (normalize_name user_input), idx2)

/-! ## Ingredient search -/

/-- Python substring test `q in s` (contiguous substring of the characters). -/
def strIn (q s : String) : Bool := decide (q.data <:+: s.data)

/-- `search_by_ingredient(query)`: lowercase the query once, then for each
catalog entry append `(slug, title)` if some ingredient contains the query
case-insensitively (the inner `break` appends at most once per entry). -/
def search_by_ingredient (details : List (String × Details)) (query : String) :
    List (String × String) :=
  let q := pyLower query
  details.foldl
    (fun results p =>
      if p.2.ingredients.any (fun ing => strIn q (pyLower ing)) then
        results ++ [(p.1, p.2.title)]
      else results)
    []

/-! ## Favorites store (`database.py`)

The `favorites(user_id, slug)` table with composite primary key is a list of
pairs; the primary key means a pair occurs at most once, and the embedded
operations preserve that reading (`filter` deletes every copy, mirroring
`DELETE WHERE user_id = ? AND slug = ?`). -/

abbrev FavDB := List (Nat × String)

/-- `is_favorite`: `SELECT 1 FROM favorites WHERE user_id = ? AND slug = ?`. -/
def is_favorite (db : FavDB) (u : Nat) (s : String) : Bool :=
  decide ((u, s) ∈ db)

/-- `add_favorite`: `INSERT`, catching the integrity error on a duplicate;
returns whether the row was newly inserted. -/
def add_favorite (db : FavDB) (u : Nat) (s : String) : Bool × FavDB :=
  if (u, s) ∈ db then (false, db) else (true, db ++ [(u, s)])

/-- `remove_favorite`: `DELETE WHERE user_id = ? AND slug = ?`; returns
whether a row was actually removed (`rowcount > 0`). -/
def remove_favorite (db : FavDB) (u : Nat) (s : String) : Bool × FavDB :=
  (decide ((u, s) ∈ db), db.filter (fun r => r ≠ (u, s)))

/-- `toggle_favorite`: check membership, then remove (returning `false`) or
add (returning `true`). -/
def toggle_favorite (db : FavDB) (u : Nat) (s : String) : Bool × FavDB :=
  if is_favorite db u s then (false, (remove_favorite db u s).2)
  else (true, (add_favorite db u s).2)

/-! ## Video cache (`database.py`)

The `video_cache(slug PRIMARY KEY, file_id)` table is a map from slug to
file id; `INSERT OR REPLACE` is a pointwise update. -/

abbrev Cache := String → Option String

/-- `get_video_file_id`: `SELECT file_id FROM video_cache WHERE slug = ?`. -/
def get_video_file_id (c : Cache) (slug : String) : Option String := c slug

/-- `save_video_file_id`: `INSERT OR REPLACE INTO video_cache`, replacing any
prior handle for that slug. -/
def save_video_file_id (c : Cache) (slug fid : String) : Cache :=
  fun s => if s = slug then some fid else c s

/-! ## Media resolver (`resolve_video_source`) -/

/-- A value of the `COCKTAIL_VIDEOS` table: Python distinguishes `str` from
`Path` by a runtime type check. -/
inductive VideoValue
  | str (s : String)
  | path (p : String)
deriving Repr, DecidableEq

/-- Result of `resolve_video_source`: a remote URL string or a local file
path (the Python return type `str | Path`). -/
inductive ResolvedSource
  | url (u : String)
  | file (p : String)
deriving Repr, DecidableEq

/-- The `video` directory next to the bot file (`VIDEOS_DIR`),
represented by its path string. -/
def VIDEOS_DIR : String := "video"

/-- The `pathlib` join `a / b`: when the right operand is absolute it
replaces the left one entirely. -/
def pathJoin (a b : String) : String :=
  if pyStartsWith b "/" then b else a ++ "/" ++ b

/-- `Path.is_absolute()` on a POSIX path. -/
def isAbsolutePath (p : String) : Bool := pyStartsWith p "/"

/-- `resolve_video_source(slug)`: `None` when the table has no entry; a `str`
value starting with a URL scheme is returned as is; otherwise the value is
resolved to a candidate path (absolute `Path` values stand alone, everything
else joins `VIDEOS_DIR`) and returned only if it exists on disk.  The file
system is the predicate `disk`. -/
def resolve_video_source (videos : String → Option VideoValue)
    (disk : String → Bool) (slug : String) : Option ResolvedSource :=
  match videos slug with
  | none => none
  | some (VideoValue.str s) =>
      if pyStartsWith s "http://" || pyStartsWith s "https://" then
        some (ResolvedSource.url s)
      else
        let candidate := pathJoin VIDEOS_DIR s
        if disk candidate then some (ResolvedSource.file candidate) else none
  | some (VideoValue.path p) =>
      let candidate := if isAbsolutePath p then p else pathJoin VIDEOS_DIR p
      if disk candidate then some (ResolvedSource.file candidate) else none

/-! ## Delivery engine (`send_cocktail_message` / `send_cocktail_response`)

The Telegram calls are modelled by an environment of outcomes: one outcome
for the cached-handle attempt and one outcome per primary-source attempt
index.  A successful media call returns a message whose `.video.file_id` is
the new handle (`none` models a falsy result or a message without video).
The engine records an event trace: file opens (the `with source.open("rb")`
entered once per loop iteration), send attempts, cache writes and text
fallbacks. -/

/-- Outcome of one platform send/edit call. -/
inductive SendOutcome
  | success (fid : Option String)
  | badRequest
  | timedOut
deriving Repr, DecidableEq

/-- What the invocation did in the end.  `raised` models an exception
escaping the Python function uncaught. -/
inductive Delivered
  | video
  | text (t : String)
  | raised
deriving Repr, DecidableEq

/-- Observable side effects, in order. -/
inductive Ev
  | sentByCachedHandle (h : String)
  | openedFile (p : String)
  | sentVideo (src : ResolvedSource)
  | savedHandle (slug fid : String)
  | sentText (t : String)
deriving Repr, DecidableEq

def Ev.isCachedSend : Ev → Bool
  | .sentByCachedHandle _ => true
  | _ => false

def Ev.isOpenFile : Ev → Bool
  | .openedFile _ => true
  | _ => false

def Ev.isTextSend : Ev → Bool
  | .sentText _ => true
  | _ => false

def Ev.isVideoSend : Ev → Bool
  | .sentVideo _ => true
  | _ => false

/-- Result of one engine invocation. -/
structure EngineResult where
  outcome : Delivered
  cache : Cache
  trace : List Ev

/-- `max_retries = 2` in both delivery functions. -/
def max_retries : Nat := 2

/-- Body of `for attempt in range(max_retries + 1)` with
`except TimedOut` as the only handler.  `remaining` is
`max_retries - attempt`, so the source guard `attempt < max_retries` is
`remaining > 0`; `attempt` itself indexes the outcome environment.  A local
file source is reopened at the top of every iteration; a timeout retries
while attempts remain, and on the last attempt sends `retryFallback`; a
`BadRequest` is not caught and escapes; on success the returned `file_id`
(when present) is saved for `slug`. -/
def retry_loop (src : ResolvedSource) (slug retryFallback : String)
    (outs : Nat → SendOutcome) (cache : Cache) :
    Nat → Nat → EngineResult
  | remaining, attempt =>
    let pre : List Ev :=
      match src with
      | .file p => [Ev.openedFile p]
      | .url _ => []
    match outs attempt with
    | .success fid? =>
        match fid? with
        | some fid =>
            { outcome := Delivered.video
              cache := save_video_file_id cache slug fid
              trace := pre ++ [Ev.sentVideo src, Ev.savedHandle slug fid] }
        | none =>
            { outcome := Delivered.video, cache := cache
              trace := pre ++ [Ev.sentVideo src] }
    | .badRequest =>
        { outcome := Delivered.raised, cache := cache
          trace := pre ++ [Ev.sentVideo src] }
    | .timedOut =>
        match remaining with
        | r + 1 =>
            let rest := retry_loop src slug retryFallback outs cache r (attempt + 1)
            { outcome := rest.outcome, cache := rest.cache
              trace := pre ++ [Ev.sentVideo src] ++ rest.trace }
        | 0 =>
            { outcome := Delivered.text retryFallback, cache := cache
              trace := pre ++ [Ev.sentVideo src, Ev.sentText retryFallback] }

/-- Primary-source part of both delivery functions: `resolve_video_source`
picks the source; if present the retry loop runs from attempt 0, otherwise
the plain caption is sent as text (the trailing `else` branch). -/
def primary_phase (slug caption retryFallback : String) (cache : Cache)
    (videos : String → Option VideoValue) (disk : String → Bool)
    (outs : Nat → SendOutcome) : EngineResult :=
  match resolve_video_source videos disk slug with
  | some src => retry_loop src slug retryFallback outs cache max_retries 0
  | none =>
      { outcome := Delivered.text caption, cache := cache
        trace := [Ev.sentText caption] }

/-- Common body of the two delivery functions.  First the cached handle from
the video cache is tried once (Python truthiness: a `""` handle is skipped);
its success ends the invocation without re-saving, while `BadRequest` and
`TimedOut` are both caught and fall through to the primary source. -/
def deliver_media (slug caption retryFallback : String) (cache : Cache)
    (videos : String → Option VideoValue) (disk : String → Bool)
    (cachedOut : SendOutcome) (outs : Nat → SendOutcome) : EngineResult :=
  match get_video_file_id cache slug with
  | some h =>
      if h = "" then primary_phase slug caption retryFallback cache videos disk outs
      else
        match cachedOut with
        | .success _ =>
            { outcome := Delivered.video, cache := cache
              trace := [Ev.sentByCachedHandle h] }
        | _ =>
            let primary := primary_phase slug caption retryFallback cache videos disk outs
            { outcome := primary.outcome, cache := primary.cache
              trace := Ev.sentByCachedHandle h :: primary.trace }
  | none => primary_phase slug caption retryFallback cache videos disk outs

/-- The degraded-delivery notice of `send_cocktail_message`. -/
def video_unavailable_notice : String := "\n\n⚠️ Видео временно недоступно"

/-- `send_cocktail_message` (text-input path): on retry exhaustion it sends
the caption with the degraded-delivery notice appended. -/
def send_cocktail_message (slug caption : String) (cache : Cache)
    (videos : String → Option VideoValue) (disk : String → Bool)
    (cachedOut : SendOutcome) (outs : Nat → SendOutcome) : EngineResult :=
  deliver_media slug caption (caption ++ video_unavailable_notice)
    cache videos disk cachedOut outs

/-- `send_cocktail_response` (button-callback path): on retry exhaustion it
sends the caption unchanged (`edit_query_with_text_or_photo` with the same
caption as the no-media branch). -/
def send_cocktail_response (slug caption : String) (cache : Cache)
    (videos : String → Option VideoValue) (disk : String → Bool)
    (cachedOut : SendOutcome) (outs : Nat → SendOutcome) : EngineResult :=
  deliver_media slug caption caption cache videos disk cachedOut outs

/-! ## A concrete catalog instance -/

/-- Modelled from the spec: the static catalog module `cocktails_data` is not
under `src/` (it is an external data table per §1); following the data model
of §3 and the Negroni example of §8, one alcoholic recipe. -/
def specNegroni : Details :=
  { title := "Negroni"
    ingredients := ["gin", "sweet vermouth", "campari"]
    method := "Stir with ice and strain." }

/-- Modelled from the spec: `ALCOHOLIC_COCKTAILS` as `(slug, label)` pairs. -/
def specAlcoholic : List (String × String) := [("negroni", "Negroni")]

/-- Modelled from the spec: `COCKTAIL_DETAILS` as `(slug, details)` pairs. -/
def specDetails : List (String × Details) := [("negroni", specNegroni)]

/-! ## Name-index lemmas

`build_name_index` is a left fold of `register_name` over its registration
sequence; `setdefault` makes the first registration of a normalized name
win.  The lemmas below characterize lookups over such folds. -/

/-- One registration step, as the fold function over `(name, slug)` pairs. -/
def regFold (i : NameIndex) (r : String × String) : NameIndex :=
  register_name i r.1 r.2

/-- The `(name, slug)` registration sequence of `build_name_index`, in
execution order. -/
def registrations (alc nonalc : List (String × String))
    (details : List (String × Details)) : List (String × String) :=
  (alc ++ nonalc).flatMap (fun p => [(p.2, p.1), (replaceUnderscores p.1, p.1)])
    ++ details.map (fun p => (p.2.title, p.1)) ++ [("1", " ")]

theorem foldl_pair_regs (l : List (String × String)) (idx : NameIndex) :
    l.foldl
      (fun i p => register_name (register_name i p.2 p.1) (replaceUnderscores p.1) p.1)
      idx
    = (l.flatMap (fun p => [(p.2, p.1), (replaceUnderscores p.1, p.1)])).foldl
        regFold idx := by
  induction l generalizing idx with
  | nil => rfl
  | cons a l ih => simp [List.flatMap_cons, List.foldl_append, regFold, ih]

theorem foldl_title_regs (l : List (String × Details)) (idx : NameIndex) :
    l.foldl (fun i p => register_name i p.2.title p.1) idx
      = (l.map (fun p => (p.2.title, p.1))).foldl regFold idx := by
  simp [List.foldl_map, regFold]

theorem build_eq_fold (alc nonalc : List (String × String))
    (details : List (String × Details)) :
    build_name_index alc nonalc details
      = (registrations alc nonalc details).foldl regFold [] := by
  simp [build_name_index, registrations, List.foldl_append,
    foldl_pair_regs, foldl_title_regs, regFold]

theorem lookupIdx_nil (k : String) : lookupIdx [] k = none := rfl

theorem lookupIdx_append_single (idx : NameIndex) (k v k2 : String) :
    lookupIdx (idx ++ [(k, v)]) k2 =
      match lookupIdx idx k2 with
      | some w => some w
      | none => if k = k2 then some v else none := by
  induction idx with
  | nil =>
      cases hbeq : (k == k2) with
      | true =>
          have h : k = k2 := by simpa using hbeq
          simp [lookupIdx, List.find?, hbeq, h]
      | false =>
          have h : ¬k = k2 := by simpa using hbeq
          simp [lookupIdx, List.find?, hbeq, h]
  | cons a idx ih =>
      simp only [lookupIdx, List.cons_append, List.find?_cons] at ih ⊢
      cases hbeq : (a.1 == k2) with
      | true => simp
      | false => simpa using ih

theorem lookupIdx_register_some (idx : NameIndex) (n s K v : String)
    (h : lookupIdx idx K = some v) :
    lookupIdx (register_name idx n s) K = some v := by
  unfold register_name setdefault
  by_cases hn : n = ""
  · simpa [hn] using h
  · simp only [hn, if_false]
    cases hl : lookupIdx idx (normalize_name n) with
    | some w => exact h
    | none => rw [lookupIdx_append_single, h]

theorem lookupIdx_register_skip (idx : NameIndex) (n s K : String)
    (h : n = "" ∨ normalize_name n ≠ K) :
    lookupIdx (register_name idx n s) K = lookupIdx idx K := by
  unfold register_name setdefault
  rcases h with h | h
  · simp [h]
  · by_cases hn : n = ""
    · simp [hn]
    · simp only [hn, if_false]
      cases hl : lookupIdx idx (normalize_name n) with
      | some w => rfl
      | none =>
          rw [lookupIdx_append_single]
          cases hk : lookupIdx idx K with
          | some w => rfl
          | none => simp [h]

theorem lookupIdx_register_hit (idx : NameIndex) (n s K : String)
    (hn : n ≠ "") (hK : normalize_name n = K) (h : lookupIdx idx K = none) :
    lookupIdx (register_name idx n s) K = some s := by
  unfold register_name setdefault
  rw [hK]
  simp only [hn, if_false, h]
  rw [lookupIdx_append_single, h]
  simp

theorem lookupIdx_fold_some (regs : List (String × String)) (idx : NameIndex)
    (K v : String) (h : lookupIdx idx K = some v) :
    lookupIdx (regs.foldl regFold idx) K = some v := by
  induction regs generalizing idx with
  | nil => exact h
  | cons r regs ih =>
      exact ih _ (lookupIdx_register_some _ _ _ _ _ h)

theorem lookupIdx_fold_first (regs : List (String × String)) (idx : NameIndex)
    (K V : String)
    (hcons : ∀ r ∈ regs, r.1 ≠ "" → normalize_name r.1 = K → r.2 = V)
    (hmem : ∃ r ∈ regs, r.1 ≠ "" ∧ normalize_name r.1 = K)
    (hidx : lookupIdx idx K = none ∨ lookupIdx idx K = some V) :
    lookupIdx (regs.foldl regFold idx) K = some V := by
  induction regs generalizing idx with
  | nil => simp at hmem
  | cons r regs ih =>
      by_cases hr : r.1 ≠ "" ∧ normalize_name r.1 = K
      · have hv : r.2 = V := hcons r (List.mem_cons_self r regs) hr.1 hr.2
        rcases hidx with h0 | h0
        · have hstep : lookupIdx (regFold idx r) K = some V := by
            rw [← hv]
            exact lookupIdx_register_hit _ _ _ _ hr.1 hr.2 h0
          exact lookupIdx_fold_some regs _ K V hstep
        · have hstep : lookupIdx (regFold idx r) K = some V :=
            lookupIdx_register_some _ _ _ _ _ h0
          exact lookupIdx_fold_some regs _ K V hstep
      · have hskip : lookupIdx (regFold idx r) K = lookupIdx idx K := by
          apply lookupIdx_register_skip
          by_cases h1 : r.1 = ""
          · exact Or.inl h1
          · exact Or.inr (fun hk => hr ⟨h1, hk⟩)
        apply ih
        · intro x hx h1 h2
          exact hcons x (List.mem_cons_of_mem r hx) h1 h2
        · rcases hmem with ⟨r0, hr0, hp⟩
          rcases List.mem_cons.mp hr0 with h1 | h1
          · exact absurd (h1 ▸ hp) hr
          · exact ⟨r0, h1, hp⟩
        · rw [hskip]; exact hidx

theorem title_mem_registrations (alc nonalc : List (String × String))
    (details : List (String × Details)) (slug : String) (d : Details)
    (h : (slug, d) ∈ details) :
    (d.title, slug) ∈ registrations alc nonalc details := by
  unfold registrations
  have : (d.title, slug) ∈ details.map (fun p => (p.2.title, p.1)) :=
    List.mem_map.mpr ⟨(slug, d), h, rfl⟩
  simp only [List.mem_append]
  tauto

theorem register_name_ne_nil (idx : NameIndex) (n s : String) (hn : ¬n = "") :
    register_name idx n s ≠ [] := by
  unfold register_name setdefault
  simp only [hn, if_false]
  cases hl : lookupIdx idx (normalize_name n) with
  | some w =>
      intro hnil
      simp only [] at hnil
      rw [hnil] at hl
      simp [lookupIdx] at hl
  | none => simp

theorem build_name_index_ne_nil (alc nonalc : List (String × String))
    (details : List (String × Details)) :
    build_name_index alc nonalc details ≠ [] := by
  rw [build_eq_fold]
  unfold registrations
  simp only [List.foldl_append, List.foldl_cons, List.foldl_nil]
  exact register_name_ne_nil _ "1" " " (by decide)

theorem mem_register (idx : NameIndex) (n s : String) (q : String × String)
    (h : q ∈ register_name idx n s) : q ∈ idx ∨ q = (normalize_name n, s) := by
  unfold register_name setdefault at h
  by_cases hn : n = ""
  · rw [if_pos hn] at h
    exact Or.inl h
  · simp only [hn, if_false] at h
    cases hl : lookupIdx idx (normalize_name n) with
    | some w => rw [hl] at h; exact Or.inl h
    | none =>
        rw [hl] at h
        rcases List.mem_append.mp h with h1 | h1
        · exact Or.inl h1
        · simp at h1
          exact Or.inr h1

theorem mem_fold_regs (regs : List (String × String)) (idx : NameIndex)
    (q : String × String) (h : q ∈ regs.foldl regFold idx) :
    q ∈ idx ∨ ∃ r ∈ regs, q = (normalize_name r.1, r.2) := by
  induction regs generalizing idx with
  | nil => exact Or.inl h
  | cons r regs ih =>
      rcases ih _ h with h2 | ⟨r0, hr0, he⟩
      · rcases mem_register _ _ _ _ h2 with h3 | h3
        · exact Or.inl h3
        · exact Or.inr ⟨r, List.mem_cons_self r regs, h3⟩
      · exact Or.inr ⟨r0, List.mem_cons_of_mem r hr0, he⟩

theorem lookupIdx_mem (idx : NameIndex) (K v : String)
    (h : lookupIdx idx K = some v) : (K, v) ∈ idx := by
  unfold lookupIdx at h
  cases hf : idx.find? (fun p => p.1 == K) with
  | none => rw [hf] at h; simp at h
  | some p =>
      rw [hf] at h
      have h1 := List.find?_some hf
      have h2 : p ∈ idx := List.mem_of_find?_eq_some hf
      have h3 : p.1 = K := by simpa using h1
      have h4 : p.2 = v := by simpa using h
      rw [← h3, ← h4]
      exact h2

/-! ## Ingredient-search lemmas -/

theorem foldl_append_if {α β : Type} (c : α → Bool) (g : α → β) (l : List α) :
    ∀ acc : List β,
      l.foldl (fun res p => if c p then res ++ [g p] else res) acc
        = acc ++ (l.filter c).map g := by
  induction l with
  | nil => intro acc; simp
  | cons a l ih =>
      intro acc
      by_cases h : c a <;> simp [h, ih, List.filter_cons]

theorem search_eq (details : List (String × Details)) (query : String) :
    search_by_ingredient details query
      = (details.filter
          (fun p => p.2.ingredients.any (fun ing => strIn (pyLower query) (pyLower ing)))).map
          (fun p => (p.1, p.2.title)) := by
  have h := foldl_append_if
      (fun p : String × Details =>
        p.2.ingredients.any (fun ing => strIn (pyLower query) (pyLower ing)))
      (fun p : String × Details => (p.1, p.2.title)) details []
  rw [List.nil_append] at h
  exact h

theorem search_nodup (details : List (String × Details)) (query : String)
    (h : (details.map Prod.fst).Nodup) :
    ((search_by_ingredient details query).map Prod.fst).Nodup := by
  rw [search_eq]
  have hsub :
      ((details.filter
          (fun p => p.2.ingredients.any (fun ing => strIn (pyLower query) (pyLower ing)))).map
        (fun p => (p.1, p.2.title))).map Prod.fst
        = (details.filter
            (fun p => p.2.ingredients.any (fun ing => strIn (pyLower query) (pyLower ing)))).map
            Prod.fst := by
    simp [List.map_map, Function.comp]
  rw [hsub]
  exact h.sublist ((List.filter_sublist details).map Prod.fst)

/-! ## Retry-loop trace lemmas -/

theorem retry_loop_countP_cached (src : ResolvedSource) (slug fb : String)
    (outs : Nat → SendOutcome) :
    ∀ (remaining attempt : Nat) (cache : Cache),
      (retry_loop src slug fb outs cache remaining attempt).trace.countP
        Ev.isCachedSend = 0 := by
  intro remaining
  induction remaining with
  | zero =>
      intro attempt cache
      cases houts : outs attempt with
      | success fid? =>
          cases fid? <;> cases src <;>
            simp [retry_loop, houts, Ev.isCachedSend]
      | badRequest =>
          cases src <;> simp [retry_loop, houts, Ev.isCachedSend]
      | timedOut =>
          cases src <;> simp [retry_loop, houts, Ev.isCachedSend]
  | succ r ih =>
      intro attempt cache
      cases houts : outs attempt with
      | success fid? =>
          cases fid? <;> cases src <;>
            simp [retry_loop, houts, Ev.isCachedSend]
      | badRequest =>
          cases src <;> simp [retry_loop, houts, Ev.isCachedSend]
      | timedOut =>
          cases src <;>
            simp [retry_loop, houts, Ev.isCachedSend, List.countP_append, ih]

theorem primary_phase_countP_cached (slug caption fb : String) (cache : Cache)
    (videos : String → Option VideoValue) (disk : String → Bool)
    (outs : Nat → SendOutcome) :
    (primary_phase slug caption fb cache videos disk outs).trace.countP
      Ev.isCachedSend = 0 := by
  unfold primary_phase
  cases hres : resolve_video_source videos disk slug with
  | none => simp [Ev.isCachedSend]
  | some src => exact retry_loop_countP_cached src slug fb outs max_retries 0 cache

theorem strIn_empty (s : String) : strIn "" s = true := by
  simp [strIn]

theorem any_strIn_empty (l : List String) :
    (l.any (fun ing => strIn (pyLower "") (pyLower ing))) = !l.isEmpty := by
  have hq : pyLower "" = "" := rfl
  rw [hq]
  cases l with
  | nil => rfl
  | cons a t => simp [strIn_empty]

/-! ## Favorites lemmas -/

theorem toggle_favorite_state (db : FavDB) (u : Nat) (s : String) :
    is_favorite (toggle_favorite db u s).2 u s = (toggle_favorite db u s).1
    ∧ (toggle_favorite db u s).1 = !(is_favorite db u s) := by
  unfold toggle_favorite add_favorite remove_favorite is_favorite
  by_cases hf : (u, s) ∈ db
  · simp [hf, List.mem_filter]
  · simp [hf]

/-! ## Claim theorems -/

/-- C5: the media source resolver returns the Remote URL when the descriptor
table maps the identifier to a string with a remote URL scheme prefix;
otherwise the Local File Path (absolute, or resolved against the local media
root) only if that path exists on disk; otherwise Absent (`none`).  It is a
total function (absence is a normal result, never an error), and a mapped
local path that does not exist on disk yields Absent. -/
theorem c5_resolve_video_source_spec (videos : String → Option VideoValue)
    (disk : String → Bool) (slug : String) :
    (videos slug = none → resolve_video_source videos disk slug = none)
    ∧ (∀ s, videos slug = some (VideoValue.str s) →
        (pyStartsWith s "http://" || pyStartsWith s "https://") = true →
        resolve_video_source videos disk slug = some (ResolvedSource.url s))
    ∧ (∀ s, videos slug = some (VideoValue.str s) →
        (pyStartsWith s "http://" || pyStartsWith s "https://") = false →
        disk (pathJoin VIDEOS_DIR s) = true →
        resolve_video_source videos disk slug
          = some (ResolvedSource.file (pathJoin VIDEOS_DIR s)))
    ∧ (∀ s, videos slug = some (VideoValue.str s) →
        (pyStartsWith s "http://" || pyStartsWith s "https://") = false →
        disk (pathJoin VIDEOS_DIR s) = false →
        resolve_video_source videos disk slug = none)
    ∧ (∀ p, videos slug = some (VideoValue.path p) →
        disk (if isAbsolutePath p then p else pathJoin VIDEOS_DIR p) = true →
        resolve_video_source videos disk slug
          = some (ResolvedSource.file
              (if isAbsolutePath p then p else pathJoin VIDEOS_DIR p)))
    ∧ (∀ p, videos slug = some (VideoValue.path p) →
        disk (if isAbsolutePath p then p else pathJoin VIDEOS_DIR p) = false →
        resolve_video_source videos disk slug = none) := by
  unfold resolve_video_source
  refine ⟨?_, ?_, ?_, ?_, ?_, ?_⟩
  · intro h; rw [h]
  · intro s h hurl; rw [h]; simp [hurl]
  · intro s h hurl hd; rw [h]; simp [hurl, hd]
  · intro s h hurl hd; rw [h]; simp [hurl, hd]
  · intro p h hd; rw [h]; simp only [isAbsolutePath] at hd ⊢; simp [hd]
  · intro p h hd; rw [h]; simp only [isAbsolutePath] at hd ⊢; simp [hd]

theorem c5_resolve_video_source_spec_witness :
    resolve_video_source
        (fun s => if s = "a" then some (VideoValue.str "http://host/v.mp4")
          else some (VideoValue.path "b.mp4"))
        (fun _ => false) "a"
      = some (ResolvedSource.url "http://host/v.mp4")
    ∧ resolve_video_source
        (fun s => if s = "a" then some (VideoValue.str "http://host/v.mp4")
          else some (VideoValue.path "b.mp4"))
        (fun _ => false) "b"
      = none :=
  ⟨(c5_resolve_video_source_spec
      (fun s => if s = "a" then some (VideoValue.str "http://host/v.mp4")
        else some (VideoValue.path "b.mp4"))
      (fun _ => false) "a").2.1 "http://host/v.mp4" (by decide) (by decide),
   (c5_resolve_video_source_spec
      (fun s => if s = "a" then some (VideoValue.str "http://host/v.mp4")
        else some (VideoValue.path "b.mp4"))
      (fun _ => false) "b").2.2.2.2.2 "b.mp4" (by decide) (by decide)⟩

/-- C7 counterexample: `build_name_index` always registers the quick keyboard
entry mapping the normalized name `"1"` to the slug `" "`, which is not an
identifier of the catalog; a name lookup of `"1"` returns it. -/
theorem c7_quick_key_counterexample :
    (find_cocktail_slug [] specAlcoholic [] specDetails "1").1 = some " "
    ∧ " " ∉ specAlcoholic.map Prod.fst
    ∧ " " ∉ specDetails.map Prod.fst := by decide

/-- C7 (amended): every identifier value stored in the name index is one of
the catalog identifiers of the category lists or of the detail table, except
for the hardcoded quick-keyboard registration whose value is the slug
`" "`. -/
theorem c7_index_values_amended (alc nonalc : List (String × String))
    (details : List (String × Details)) (K v : String)
    (h : lookupIdx (build_name_index alc nonalc details) K = some v) :
    v ∈ (alc ++ nonalc).map Prod.fst ∨ v ∈ details.map Prod.fst ∨ v = " " := by
  rw [build_eq_fold] at h
  have hm := lookupIdx_mem _ _ _ h
  rcases mem_fold_regs _ _ _ hm with h2 | ⟨r, hr, he⟩
  · simp at h2
  · have hv : v = r.2 := by
      simp only [Prod.mk.injEq] at he
      exact he.2
    unfold registrations at hr
    simp only [List.mem_append] at hr
    rcases hr with (hr1 | hr2) | hr3
    · rcases List.mem_flatMap.mp hr1 with ⟨q, hq, hrq⟩
      have h3 : r.2 = q.1 := by
        simp only [List.mem_cons, List.not_mem_nil, or_false] at hrq
        rcases hrq with h4 | h4 <;> rw [h4]
      exact Or.inl (List.mem_map.mpr ⟨q, hq, by rw [hv, h3]⟩)
    · rcases List.mem_map.mp hr2 with ⟨q, hq, hrq⟩
      have h3 : r.2 = q.1 := by rw [← hrq]
      exact Or.inr (Or.inl (List.mem_map.mpr ⟨q, hq, by rw [hv, h3]⟩))
    · simp only [List.mem_singleton] at hr3
      exact Or.inr (Or.inr (by rw [hv, hr3]))

theorem c7_index_values_amended_witness :
    " " ∈ (specAlcoholic ++ []).map Prod.fst ∨ " " ∈ specDetails.map Prod.fst
      ∨ " " = " " :=
  c7_index_values_amended specAlcoholic [] specDetails "1" " " (by decide)

/-- C8: ingredient search returns exactly the recipes with a case-insensitive
substring match of the query in some ingredient, each catalog entry at most
once (distinct slugs stay distinct), in catalog iteration order (the result
is a sublist of the title-projected catalog). -/
theorem c8_search_by_ingredient_correct (details : List (String × Details))
    (query : String) :
    (∀ slug title,
      (slug, title) ∈ search_by_ingredient details query ↔
        ∃ d, (slug, d) ∈ details ∧ title = d.title ∧
          d.ingredients.any (fun ing => strIn (pyLower query) (pyLower ing)) = true)
    ∧ ((details.map Prod.fst).Nodup →
        ((search_by_ingredient details query).map Prod.fst).Nodup)
    ∧ List.Sublist (search_by_ingredient details query)
        (details.map (fun p => (p.1, p.2.title))) := by
  refine ⟨?_, search_nodup details query, ?_⟩
  · intro slug title
    rw [search_eq]
    constructor
    · intro hm
      rcases List.mem_map.mp hm with ⟨p, hp, he⟩
      rcases List.mem_filter.mp hp with ⟨hpd, hc⟩
      obtain ⟨p1, p2⟩ := p
      simp only [Prod.mk.injEq] at he
      refine ⟨p2, ?_, he.2.symm, by simpa using hc⟩
      rw [← he.1]
      exact hpd
    · rintro ⟨d, hd, ht, hc⟩
      apply List.mem_map.mpr
      refine ⟨(slug, d), List.mem_filter.mpr ⟨hd, by simpa using hc⟩, by rw [ht]⟩
  · rw [search_eq]
    exact List.Sublist.map _ (List.filter_sublist details)

theorem c8_search_by_ingredient_correct_witness :
    ("negroni", "Negroni") ∈ search_by_ingredient specDetails "Vermouth"
    ∧ ((search_by_ingredient specDetails "Vermouth").map Prod.fst).Nodup := by
  refine ⟨?_, ?_⟩
  · exact (c8_search_by_ingredient_correct specDetails "Vermouth").1 "negroni"
      "Negroni" |>.mpr ⟨specNegroni, by decide, rfl, by decide⟩
  · exact (c8_search_by_ingredient_correct specDetails "Vermouth").2.1 (by decide)

/-- C9: starting from a state where the pair is not favorited, toggling twice
returns `true` then `false` and `is_favorite` afterwards is `false`; in
general `toggle_favorite` returns the new membership state, the flip of the
prior one. -/
theorem c9_toggle_favorite_twice (db : FavDB) (u : Nat) (s : String)
    (h : is_favorite db u s = false) :
    (toggle_favorite db u s).1 = true
    ∧ (toggle_favorite (toggle_favorite db u s).2 u s).1 = false
    ∧ is_favorite (toggle_favorite (toggle_favorite db u s).2 u s).2 u s = false
    ∧ (∀ db2 : FavDB,
        is_favorite (toggle_favorite db2 u s).2 u s = (toggle_favorite db2 u s).1
        ∧ (toggle_favorite db2 u s).1 = !(is_favorite db2 u s)) := by
  have h1 : (toggle_favorite db u s).1 = true := by
    rw [(toggle_favorite_state db u s).2, h]
    rfl
  have h2 : is_favorite (toggle_favorite db u s).2 u s = true := by
    rw [(toggle_favorite_state db u s).1, h1]
  have h3 : (toggle_favorite (toggle_favorite db u s).2 u s).1 = false := by
    rw [(toggle_favorite_state _ u s).2, h2]
    rfl
  have h4 :
      is_favorite (toggle_favorite (toggle_favorite db u s).2 u s).2 u s = false := by
    rw [(toggle_favorite_state _ u s).1, h3]
  exact ⟨h1, h3, h4, fun db2 => toggle_favorite_state db2 u s⟩

theorem c9_toggle_favorite_twice_witness :
    is_favorite [] 0 "negroni" = false
    ∧ (toggle_favorite [] 0 "negroni").1 = true
    ∧ (toggle_favorite (toggle_favorite [] 0 "negroni").2 0 "negroni").1 = false
    ∧ is_favorite
        (toggle_favorite (toggle_favorite [] 0 "negroni").2 0 "negroni").2
        0 "negroni" = false :=
  ⟨by decide,
   (c9_toggle_favorite_twice [] 0 "negroni" (by decide)).1,
   (c9_toggle_favorite_twice [] 0 "negroni" (by decide)).2.1,
   (c9_toggle_favorite_twice [] 0 "negroni" (by decide)).2.2.1⟩

/-- C10: with the empty query, ingredient search returns every catalog recipe
with at least one ingredient, each exactly once, in catalog iteration order;
recipes with an empty ingredient list are not returned. -/
theorem c10_search_empty_query (details : List (String × Details)) :
    search_by_ingredient details ""
      = (details.filter (fun p => !p.2.ingredients.isEmpty)).map
          (fun p => (p.1, p.2.title))
    ∧ ((details.map Prod.fst).Nodup →
        ((search_by_ingredient details "").map Prod.fst).Nodup) := by
  refine ⟨?_, search_nodup details ""⟩
  rw [search_eq]
  congr 1
  apply List.filter_congr
  intro p _
  exact any_strIn_empty p.2.ingredients

theorem c10_search_empty_query_witness :
    search_by_ingredient specDetails ""
      = (specDetails.filter (fun p => !p.2.ingredients.isEmpty)).map
          (fun p => (p.1, p.2.title))
    ∧ ((search_by_ingredient specDetails "").map Prod.fst).Nodup :=
  ⟨(c10_search_empty_query specDetails).1,
   (c10_search_empty_query specDetails).2 (by decide)⟩

/-! ## Delivery-engine claim lemmas -/

theorem retry_loop_raised (src : ResolvedSource) (slug fb : String)
    (outs : Nat → SendOutcome) (cache : Cache) :
    ∀ (k remaining attempt : Nat), k ≤ remaining →
      (∀ i, i < k → outs (attempt + i) = SendOutcome.timedOut) →
      outs (attempt + k) = SendOutcome.badRequest →
      ((retry_loop src slug fb outs cache remaining attempt).outcome
          = Delivered.raised
        ∧ (retry_loop src slug fb outs cache remaining attempt).cache = cache
        ∧ (retry_loop src slug fb outs cache remaining attempt).trace.countP
            Ev.isTextSend = 0) := by
  intro k
  induction k with
  | zero =>
      intro remaining attempt _ _ hit
      rw [Nat.add_zero] at hit
      cases remaining <;> cases src <;> simp [retry_loop, hit, Ev.isTextSend]
  | succ j ih =>
      intro remaining attempt hk hbefore hit
      obtain ⟨r, rfl⟩ : ∃ r, remaining = r + 1 :=
        ⟨remaining - 1, by omega⟩
      have h0 : outs attempt = SendOutcome.timedOut := by
        have := hbefore 0 (by omega)
        simpa using this
      have hb2 : ∀ i, i < j → outs (attempt + 1 + i) = SendOutcome.timedOut := by
        intro i hi
        have := hbefore (i + 1) (by omega)
        rw [show attempt + 1 + i = attempt + (i + 1) by omega]
        exact this
      have hit2 : outs (attempt + 1 + j) = SendOutcome.badRequest := by
        rw [show attempt + 1 + j = attempt + (j + 1) by omega]
        exact hit
      have hrec := ih r (attempt + 1) (by omega) hb2 hit2
      cases src <;>
        simp [retry_loop, h0, Ev.isTextSend, List.countP_append, hrec.1,
          hrec.2.1, hrec.2.2]

theorem retry_loop_exhausted (src : ResolvedSource) (slug fb : String)
    (outs : Nat → SendOutcome) (cache : Cache) :
    ∀ (remaining attempt : Nat),
      (∀ i, i ≤ remaining → outs (attempt + i) = SendOutcome.timedOut) →
      ((retry_loop src slug fb outs cache remaining attempt).outcome
          = Delivered.text fb
        ∧ (retry_loop src slug fb outs cache remaining attempt).cache = cache
        ∧ (retry_loop src slug fb outs cache remaining attempt).trace.countP
            Ev.isTextSend = 1) := by
  intro remaining
  induction remaining with
  | zero =>
      intro attempt hall
      have h0 : outs attempt = SendOutcome.timedOut := by
        have := hall 0 (by omega)
        simpa using this
      cases src <;> simp [retry_loop, h0, Ev.isTextSend]
  | succ r ih =>
      intro attempt hall
      have h0 : outs attempt = SendOutcome.timedOut := by
        have := hall 0 (by omega)
        simpa using this
      have hall2 : ∀ i, i ≤ r → outs (attempt + 1 + i) = SendOutcome.timedOut := by
        intro i hi
        have := hall (i + 1) (by omega)
        rw [show attempt + 1 + i = attempt + (i + 1) by omega]
        exact this
      have hrec := ih (attempt + 1) hall2
      cases src <;>
        simp [retry_loop, h0, Ev.isTextSend, List.countP_append, hrec.1,
          hrec.2.1, hrec.2.2]

/-! ## Delivery-engine claims -/

/-- C1: with no cached handle and a Local File Path source, two transient
timeouts followed by success on the third attempt (the final retry) deliver
the video, persist the returned handle into the video cache, send no fallback
text, and open the local file fresh on each of the three attempts; the
text-message and button-callback paths behave identically here. -/
theorem c1_local_file_retry_success (slug caption p fid : String)
    (cache : Cache) (videos : String → Option VideoValue) (disk : String → Bool)
    (cachedOut : SendOutcome) (outs : Nat → SendOutcome)
    (hcache : cache slug = none)
    (hres : resolve_video_source videos disk slug
      = some (ResolvedSource.file p))
    (h0 : outs 0 = SendOutcome.timedOut) (h1 : outs 1 = SendOutcome.timedOut)
    (h2 : outs 2 = SendOutcome.success (some fid)) :
    send_cocktail_message slug caption cache videos disk cachedOut outs
      = { outcome := Delivered.video
          cache := save_video_file_id cache slug fid
          trace := [Ev.openedFile p, Ev.sentVideo (ResolvedSource.file p),
            Ev.openedFile p, Ev.sentVideo (ResolvedSource.file p),
            Ev.openedFile p, Ev.sentVideo (ResolvedSource.file p),
            Ev.savedHandle slug fid] }
    ∧ (send_cocktail_message slug caption cache videos disk cachedOut
        outs).cache slug = some fid
    ∧ (send_cocktail_message slug caption cache videos disk cachedOut
        outs).trace.countP Ev.isTextSend = 0
    ∧ (send_cocktail_message slug caption cache videos disk cachedOut
        outs).trace.countP Ev.isOpenFile = 3
    ∧ send_cocktail_response slug caption cache videos disk cachedOut outs
      = send_cocktail_message slug caption cache videos disk cachedOut outs := by
  have key : ∀ fb, deliver_media slug caption fb cache videos disk cachedOut outs
      = { outcome := Delivered.video
          cache := save_video_file_id cache slug fid
          trace := [Ev.openedFile p, Ev.sentVideo (ResolvedSource.file p),
            Ev.openedFile p, Ev.sentVideo (ResolvedSource.file p),
            Ev.openedFile p, Ev.sentVideo (ResolvedSource.file p),
            Ev.savedHandle slug fid] } := by
    intro fb
    unfold deliver_media get_video_file_id primary_phase max_retries
    rw [hcache, hres]
    simp [retry_loop, h0, h1, h2]
  have hm := key (caption ++ video_unavailable_notice)
  have hr := key caption
  refine ⟨hm, ?_, ?_, ?_, ?_⟩
  · show (deliver_media slug caption (caption ++ video_unavailable_notice)
      cache videos disk cachedOut outs).cache slug = some fid
    rw [hm]
    simp [save_video_file_id]
  · show (deliver_media slug caption (caption ++ video_unavailable_notice)
      cache videos disk cachedOut outs).trace.countP Ev.isTextSend = 0
    rw [hm]
    rfl
  · show (deliver_media slug caption (caption ++ video_unavailable_notice)
      cache videos disk cachedOut outs).trace.countP Ev.isOpenFile = 3
    rw [hm]
    rfl
  · show deliver_media slug caption caption cache videos disk cachedOut outs
      = deliver_media slug caption (caption ++ video_unavailable_notice)
        cache videos disk cachedOut outs
    rw [hm, hr]

theorem c1_local_file_retry_success_witness :
    (send_cocktail_message "negroni" "cap" (fun _ => none)
        (fun s => if s = "negroni" then some (VideoValue.path "negroni.mp4")
          else none)
        (fun _ => true) SendOutcome.timedOut
        (fun i => if i < 2 then SendOutcome.timedOut
          else SendOutcome.success (some "FID"))).cache "negroni" = some "FID"
    ∧ (send_cocktail_message "negroni" "cap" (fun _ => none)
        (fun s => if s = "negroni" then some (VideoValue.path "negroni.mp4")
          else none)
        (fun _ => true) SendOutcome.timedOut
        (fun i => if i < 2 then SendOutcome.timedOut
          else SendOutcome.success (some "FID"))).trace.countP
        Ev.isOpenFile = 3 :=
  ⟨(c1_local_file_retry_success "negroni" "cap" "video/negroni.mp4" "FID"
      (fun _ => none)
      (fun s => if s = "negroni" then some (VideoValue.path "negroni.mp4")
        else none)
      (fun _ => true) SendOutcome.timedOut
      (fun i => if i < 2 then SendOutcome.timedOut
        else SendOutcome.success (some "FID"))
      rfl (by decide) rfl rfl rfl).2.1,
   (c1_local_file_retry_success "negroni" "cap" "video/negroni.mp4" "FID"
      (fun _ => none)
      (fun s => if s = "negroni" then some (VideoValue.path "negroni.mp4")
        else none)
      (fun _ => true) SendOutcome.timedOut
      (fun i => if i < 2 then SendOutcome.timedOut
        else SendOutcome.success (some "FID"))
      rfl (by decide) rfl rfl rfl).2.2.2.1⟩

/-- C2: when a cached handle exists, a failing send-by-handle (malformed
request or timeout) falls through to the primary source with the handle
attempted exactly once (not retried); a subsequent successful primary-source
delivery persists the new handle for the recipe, overwriting the cache entry;
and a successful delivery by cached handle leaves the cache unchanged (no
re-save). -/
theorem c2_cached_handle_fallthrough (slug caption h : String) (cache : Cache)
    (videos : String → Option VideoValue) (disk : String → Bool)
    (outs : Nat → SendOutcome)
    (hcache : cache slug = some h) (hne : ¬h = "") :
    (∀ cachedOut,
      cachedOut = SendOutcome.badRequest ∨ cachedOut = SendOutcome.timedOut →
      ((send_cocktail_message slug caption cache videos disk cachedOut
          outs).trace.countP Ev.isCachedSend = 1
        ∧ (send_cocktail_response slug caption cache videos disk cachedOut
            outs).trace.countP Ev.isCachedSend = 1
        ∧ (∀ src fid, resolve_video_source videos disk slug = some src →
            outs 0 = SendOutcome.success (some fid) →
            ((send_cocktail_message slug caption cache videos disk cachedOut
                outs).cache slug = some fid
              ∧ (send_cocktail_message slug caption cache videos disk cachedOut
                  outs).outcome = Delivered.video
              ∧ (send_cocktail_response slug caption cache videos disk cachedOut
                  outs).cache slug = some fid
              ∧ (send_cocktail_response slug caption cache videos disk cachedOut
                  outs).outcome = Delivered.video))))
    ∧ (∀ fid?,
        send_cocktail_message slug caption cache videos disk
            (SendOutcome.success fid?) outs
          = { outcome := Delivered.video, cache := cache
              trace := [Ev.sentByCachedHandle h] }
        ∧ send_cocktail_response slug caption cache videos disk
            (SendOutcome.success fid?) outs
          = { outcome := Delivered.video, cache := cache
              trace := [Ev.sentByCachedHandle h] }) := by
  have hfall : ∀ fb cachedOut,
      cachedOut = SendOutcome.badRequest ∨ cachedOut = SendOutcome.timedOut →
      deliver_media slug caption fb cache videos disk cachedOut outs
        = { outcome := (primary_phase slug caption fb cache videos disk outs).outcome
            cache := (primary_phase slug caption fb cache videos disk outs).cache
            trace := Ev.sentByCachedHandle h
              :: (primary_phase slug caption fb cache videos disk outs).trace } := by
    intro fb cachedOut hco
    unfold deliver_media get_video_file_id
    rw [hcache]
    rcases hco with hco | hco <;> subst hco <;> simp [hne]
  have hsave : ∀ fb src fid, resolve_video_source videos disk slug = some src →
      outs 0 = SendOutcome.success (some fid) →
      ((primary_phase slug caption fb cache videos disk outs).cache slug = some fid
        ∧ (primary_phase slug caption fb cache videos disk outs).outcome
          = Delivered.video) := by
    intro fb src fid hres houts
    unfold primary_phase max_retries
    rw [hres]
    cases src <;> simp [retry_loop, houts, save_video_file_id]
  refine ⟨?_, ?_⟩
  · intro cachedOut hco
    have hm := hfall (caption ++ video_unavailable_notice) cachedOut hco
    have hr := hfall caption cachedOut hco
    refine ⟨?_, ?_, ?_⟩
    · show (deliver_media slug caption (caption ++ video_unavailable_notice)
        cache videos disk cachedOut outs).trace.countP Ev.isCachedSend = 1
      rw [hm]
      simp [List.countP_cons, Ev.isCachedSend, primary_phase_countP_cached]
    · show (deliver_media slug caption caption
        cache videos disk cachedOut outs).trace.countP Ev.isCachedSend = 1
      rw [hr]
      simp [List.countP_cons, Ev.isCachedSend, primary_phase_countP_cached]
    · intro src fid hres houts
      have hsm := hsave (caption ++ video_unavailable_notice) src fid hres houts
      have hsr := hsave caption src fid hres houts
      refine ⟨?_, ?_, ?_, ?_⟩
      · show (deliver_media slug caption (caption ++ video_unavailable_notice)
          cache videos disk cachedOut outs).cache slug = some fid
        rw [hm]
        exact hsm.1
      · show (deliver_media slug caption (caption ++ video_unavailable_notice)
          cache videos disk cachedOut outs).outcome = Delivered.video
        rw [hm]
        exact hsm.2
      · show (deliver_media slug caption caption
          cache videos disk cachedOut outs).cache slug = some fid
        rw [hr]
        exact hsr.1
      · show (deliver_media slug caption caption
          cache videos disk cachedOut outs).outcome = Delivered.video
        rw [hr]
        exact hsr.2
  · intro fid?
    constructor <;>
      · show deliver_media slug caption _ cache videos disk
          (SendOutcome.success fid?) outs = _
        unfold deliver_media get_video_file_id
        rw [hcache]
        simp [hne]

theorem c2_cached_handle_fallthrough_witness :
    ((send_cocktail_message "negroni" "cap"
        (fun s => if s = "negroni" then some "OLD" else none)
        (fun s => if s = "negroni" then some (VideoValue.path "negroni.mp4")
          else none)
        (fun _ => true) SendOutcome.badRequest
        (fun _ => SendOutcome.success (some "NEW"))).cache "negroni" = some "NEW"
      ∧ (send_cocktail_message "negroni" "cap"
          (fun s => if s = "negroni" then some "OLD" else none)
          (fun s => if s = "negroni" then some (VideoValue.path "negroni.mp4")
            else none)
          (fun _ => true) SendOutcome.badRequest
          (fun _ => SendOutcome.success (some "NEW"))).trace.countP
          Ev.isCachedSend = 1)
    ∧ send_cocktail_message "negroni" "cap"
        (fun s => if s = "negroni" then some "OLD" else none)
        (fun s => if s = "negroni" then some (VideoValue.path "negroni.mp4")
          else none)
        (fun _ => true) (SendOutcome.success none)
        (fun _ => SendOutcome.success (some "NEW"))
      = { outcome := Delivered.video
          cache := fun s => if s = "negroni" then some "OLD" else none
          trace := [Ev.sentByCachedHandle "OLD"] } := by
  have h := c2_cached_handle_fallthrough "negroni" "cap" "OLD"
    (fun s => if s = "negroni" then some "OLD" else none)
    (fun s => if s = "negroni" then some (VideoValue.path "negroni.mp4")
      else none)
    (fun _ => true) (fun _ => SendOutcome.success (some "NEW")) rfl (by decide)
  have h1 := h.1 SendOutcome.badRequest (Or.inl rfl)
  have h2 := h1.2.2 (ResolvedSource.file "video/negroni.mp4") "NEW" (by decide) rfl
  exact ⟨⟨h2.1, h1.1⟩, (h.2 none).1⟩

/-- C3 counterexample: with no cache entry and a resolvable local source, a
`BadRequest` on the first primary attempt makes the delivery routine raise
(the exception is not caught); no fallback text is sent, contradicting the
claim that a non-timeout failure produces an immediate text fallback. -/
theorem c3_badrequest_counterexample :
    (send_cocktail_message "negroni" "cap" (fun _ => none)
        (fun s => if s = "negroni" then some (VideoValue.path "negroni.mp4")
          else none)
        (fun _ => true) SendOutcome.timedOut
        (fun _ => SendOutcome.badRequest)).outcome = Delivered.raised
    ∧ (send_cocktail_message "negroni" "cap" (fun _ => none)
        (fun s => if s = "negroni" then some (VideoValue.path "negroni.mp4")
          else none)
        (fun _ => true) SendOutcome.timedOut
        (fun _ => SendOutcome.badRequest)).trace.countP Ev.isTextSend = 0 := by
  decide

/-- C3 (amended): a non-timeout (malformed request) failure at any
primary-source attempt — first attempt or any retry — propagates out of the
delivery routine uncaught: the invocation raises, the cache is unchanged, and
no fallback text is sent; there are no further retries.  Only the
cached-handle attempt catches `BadRequest` (falling through to the primary
source). -/
theorem c3_badrequest_propagates (slug caption : String) (cache : Cache)
    (videos : String → Option VideoValue) (disk : String → Bool)
    (cachedOut : SendOutcome) (outs : Nat → SendOutcome)
    (src : ResolvedSource) (k : Nat)
    (hcache : cache slug = none)
    (hres : resolve_video_source videos disk slug = some src)
    (hk : k ≤ max_retries)
    (hbefore : ∀ i, i < k → outs i = SendOutcome.timedOut)
    (hit : outs k = SendOutcome.badRequest) :
    ((send_cocktail_message slug caption cache videos disk cachedOut
        outs).outcome = Delivered.raised
      ∧ (send_cocktail_message slug caption cache videos disk cachedOut
          outs).cache = cache
      ∧ (send_cocktail_message slug caption cache videos disk cachedOut
          outs).trace.countP Ev.isTextSend = 0)
    ∧ ((send_cocktail_response slug caption cache videos disk cachedOut
        outs).outcome = Delivered.raised
      ∧ (send_cocktail_response slug caption cache videos disk cachedOut
          outs).cache = cache
      ∧ (send_cocktail_response slug caption cache videos disk cachedOut
          outs).trace.countP Ev.isTextSend = 0) := by
  have hloop := retry_loop_raised src slug (caption ++ video_unavailable_notice)
    outs cache k max_retries 0 hk (by simpa using hbefore) (by simpa using hit)
  have hloop2 := retry_loop_raised src slug caption
    outs cache k max_retries 0 hk (by simpa using hbefore) (by simpa using hit)
  have key : ∀ fb, deliver_media slug caption fb cache videos disk cachedOut outs
      = retry_loop src slug fb outs cache max_retries 0 := by
    intro fb
    unfold deliver_media get_video_file_id primary_phase
    rw [hcache, hres]
  constructor
  · refine ⟨?_, ?_, ?_⟩
    · show (deliver_media slug caption (caption ++ video_unavailable_notice)
        cache videos disk cachedOut outs).outcome = Delivered.raised
      rw [key]
      exact hloop.1
    · show (deliver_media slug caption (caption ++ video_unavailable_notice)
        cache videos disk cachedOut outs).cache = cache
      rw [key]
      exact hloop.2.1
    · show (deliver_media slug caption (caption ++ video_unavailable_notice)
        cache videos disk cachedOut outs).trace.countP Ev.isTextSend = 0
      rw [key]
      exact hloop.2.2
  · refine ⟨?_, ?_, ?_⟩
    · show (deliver_media slug caption caption
        cache videos disk cachedOut outs).outcome = Delivered.raised
      rw [key]
      exact hloop2.1
    · show (deliver_media slug caption caption
        cache videos disk cachedOut outs).cache = cache
      rw [key]
      exact hloop2.2.1
    · show (deliver_media slug caption caption
        cache videos disk cachedOut outs).trace.countP Ev.isTextSend = 0
      rw [key]
      exact hloop2.2.2

theorem c3_badrequest_propagates_witness :
    (send_cocktail_message "negroni" "cap" (fun _ => none)
        (fun s => if s = "negroni" then some (VideoValue.path "negroni.mp4")
          else none)
        (fun _ => true) SendOutcome.timedOut
        (fun i => if i = 0 then SendOutcome.timedOut
          else SendOutcome.badRequest)).outcome = Delivered.raised
    ∧ (send_cocktail_message "negroni" "cap" (fun _ => none)
        (fun s => if s = "negroni" then some (VideoValue.path "negroni.mp4")
          else none)
        (fun _ => true) SendOutcome.timedOut
        (fun i => if i = 0 then SendOutcome.timedOut
          else SendOutcome.badRequest)).trace.countP Ev.isTextSend = 0 := by
  have h := c3_badrequest_propagates "negroni" "cap" (fun _ => none)
    (fun s => if s = "negroni" then some (VideoValue.path "negroni.mp4")
      else none)
    (fun _ => true) SendOutcome.timedOut
    (fun i => if i = 0 then SendOutcome.timedOut else SendOutcome.badRequest)
    (ResolvedSource.file "video/negroni.mp4") 1 rfl (by decide) (by decide)
    (by intro i hi; have h0 : i = 0 := by omega
        subst h0; rfl)
    rfl
  exact ⟨h.1.1, h.1.2.2⟩

/-- C4 counterexample: in the button-callback path, after a media attempt was
made (three video sends) and failed with retries exhausted, the fallback text
is the plain caption — no degraded-delivery notice is appended, contradicting
the claim for this delivery path. -/
theorem c4_response_no_notice_counterexample :
    (send_cocktail_response "negroni" "cap" (fun _ => none)
        (fun s => if s = "negroni" then some (VideoValue.path "negroni.mp4")
          else none)
        (fun _ => true) SendOutcome.timedOut
        (fun _ => SendOutcome.timedOut)).outcome = Delivered.text "cap"
    ∧ (send_cocktail_response "negroni" "cap" (fun _ => none)
        (fun s => if s = "negroni" then some (VideoValue.path "negroni.mp4")
          else none)
        (fun _ => true) SendOutcome.timedOut
        (fun _ => SendOutcome.timedOut)).trace.countP Ev.isVideoSend = 3
    ∧ ¬("cap" = "cap" ++ video_unavailable_notice) := by
  decide

/-- C4 (amended): in the text-message path a failed media attempt with
retries exhausted sends the caption with the degraded notice appended, and an
Absent source sends the plain caption with no media attempt; in the
button-callback path the fallback after exhausted retries is the plain
caption with no notice, the same text as its Absent case. -/
theorem c4_fallback_notice_paths (slug caption : String) (cache : Cache)
    (videos : String → Option VideoValue) (disk : String → Bool)
    (cachedOut : SendOutcome) (outs : Nat → SendOutcome)
    (hcache : cache slug = none) :
    (∀ src, resolve_video_source videos disk slug = some src →
      (∀ i, i ≤ max_retries → outs i = SendOutcome.timedOut) →
      ((send_cocktail_message slug caption cache videos disk cachedOut
          outs).outcome = Delivered.text (caption ++ video_unavailable_notice)
        ∧ (send_cocktail_response slug caption cache videos disk cachedOut
            outs).outcome = Delivered.text caption))
    ∧ (resolve_video_source videos disk slug = none →
        (send_cocktail_message slug caption cache videos disk cachedOut outs
            = { outcome := Delivered.text caption, cache := cache
                trace := [Ev.sentText caption] }
          ∧ send_cocktail_response slug caption cache videos disk cachedOut outs
            = { outcome := Delivered.text caption, cache := cache
                trace := [Ev.sentText caption] }
          ∧ (send_cocktail_message slug caption cache videos disk cachedOut
              outs).trace.countP Ev.isVideoSend = 0)) := by
  constructor
  · intro src hres hall
    have h1 := retry_loop_exhausted src slug
      (caption ++ video_unavailable_notice) outs cache max_retries 0
      (by simpa using hall)
    have h2 := retry_loop_exhausted src slug caption outs cache max_retries 0
      (by simpa using hall)
    have key : ∀ fb,
        deliver_media slug caption fb cache videos disk cachedOut outs
          = retry_loop src slug fb outs cache max_retries 0 := by
      intro fb
      unfold deliver_media get_video_file_id primary_phase
      rw [hcache, hres]
    constructor
    · show (deliver_media slug caption (caption ++ video_unavailable_notice)
        cache videos disk cachedOut outs).outcome = _
      rw [key]
      exact h1.1
    · show (deliver_media slug caption caption
        cache videos disk cachedOut outs).outcome = _
      rw [key]
      exact h2.1
  · intro hres
    have key : ∀ fb,
        deliver_media slug caption fb cache videos disk cachedOut outs
          = { outcome := Delivered.text caption, cache := cache
              trace := [Ev.sentText caption] } := by
      intro fb
      unfold deliver_media get_video_file_id primary_phase
      rw [hcache, hres]
    refine ⟨key _, key _, ?_⟩
    show (deliver_media slug caption (caption ++ video_unavailable_notice)
      cache videos disk cachedOut outs).trace.countP Ev.isVideoSend = 0
    rw [key]
    rfl

theorem c4_fallback_notice_paths_witness :
    (send_cocktail_message "negroni" "cap" (fun _ => none)
        (fun s => if s = "negroni" then some (VideoValue.path "negroni.mp4")
          else none)
        (fun _ => true) SendOutcome.timedOut
        (fun _ => SendOutcome.timedOut)).outcome
      = Delivered.text ("cap" ++ video_unavailable_notice)
    ∧ (send_cocktail_message "negroni" "cap" (fun _ => none) (fun _ => none)
        (fun _ => true) SendOutcome.timedOut
        (fun _ => SendOutcome.timedOut)).outcome = Delivered.text "cap" := by
  constructor
  · exact ((c4_fallback_notice_paths "negroni" "cap" (fun _ => none)
      (fun s => if s = "negroni" then some (VideoValue.path "negroni.mp4")
        else none)
      (fun _ => true) SendOutcome.timedOut (fun _ => SendOutcome.timedOut)
      rfl).1 (ResolvedSource.file "video/negroni.mp4") (by decide)
      (fun _ _ => rfl)).1
  · have h := (c4_fallback_notice_paths "negroni" "cap" (fun _ => none)
      (fun _ => none) (fun _ => true) SendOutcome.timedOut
      (fun _ => SendOutcome.timedOut) rfl).2 rfl
    rw [h.1]

/-- C6: after building the name index, looking up a catalog entry's title
returns that entry's identifier, insensitively to surrounding whitespace and
letter case (any input with the same normalized form resolves to it), under
the first-registration-wins discipline (the hypothesis `hcons` says no
earlier registration binds the same normalized name to a different slug,
which the setdefault-based index makes necessary); registering an
already-present normalized name never overwrites it; and a lookup on the
empty index lazily builds the index first. -/
theorem c6_name_index_lookup (alc nonalc : List (String × String))
    (details : List (String × Details)) (slug : String) (d : Details)
    (hmem : (slug, d) ∈ details) (htitle : ¬d.title = "")
    (hcons : ∀ r ∈ registrations alc nonalc details,
      r.1 ≠ "" → normalize_name r.1 = normalize_name d.title → r.2 = slug) :
    lookupIdx (build_name_index alc nonalc details) (normalize_name d.title)
      = some slug
    ∧ (∀ s, ¬s = "" → normalize_name s = normalize_name d.title →
        (find_cocktail_slug (build_name_index alc nonalc details) alc nonalc
          details s).1 = some slug)
    ∧ (∀ idx n v s2, lookupIdx idx (normalize_name n) = some v →
        lookupIdx (register_name idx n s2) (normalize_name n) = some v)
    ∧ (∀ s, ¬s = "" →
        find_cocktail_slug [] alc nonalc details s
          = (lookupIdx (build_name_index alc nonalc details) (normalize_name s),
             build_name_index alc nonalc details)) := by
  have h1 : lookupIdx (build_name_index alc nonalc details)
      (normalize_name d.title) = some slug := by
    rw [build_eq_fold]
    apply lookupIdx_fold_first
    · exact hcons
    · exact ⟨(d.title, slug),
        title_mem_registrations alc nonalc details slug d hmem, htitle, rfl⟩
    · exact Or.inl rfl
  have hempty : (build_name_index alc nonalc details).isEmpty = false := by
    cases hb : build_name_index alc nonalc details with
    | nil => exact absurd hb (build_name_index_ne_nil alc nonalc details)
    | cons a t => rfl
  refine ⟨h1, ?_, ?_, ?_⟩
  · intro s hs hnorm
    unfold find_cocktail_slug
    rw [if_neg hs, hempty]
    simp only [Bool.false_eq_true, if_false]
    rw [hnorm]
    exact h1
  · intro idx n v s2 hv
    exact lookupIdx_register_some idx n s2 (normalize_name n) v hv
  · intro s hs
    unfold find_cocktail_slug
    rw [if_neg hs]
    rfl

theorem c6_name_index_lookup_witness :
    lookupIdx (build_name_index specAlcoholic [] specDetails)
        (normalize_name specNegroni.title) = some "negroni"
    ∧ (find_cocktail_slug (build_name_index specAlcoholic [] specDetails)
        specAlcoholic [] specDetails " NEGRONI ").1 = some "negroni"
    ∧ find_cocktail_slug [] specAlcoholic [] specDetails " NEGRONI "
        = (lookupIdx (build_name_index specAlcoholic [] specDetails)
            (normalize_name " NEGRONI "),
           build_name_index specAlcoholic [] specDetails) := by
  have h := c6_name_index_lookup specAlcoholic [] specDetails "negroni"
    specNegroni (by decide) (by decide) (by decide)
  exact ⟨h.1, h.2.1 " NEGRONI " (by decide) (by decide),
    h.2.2.2 " NEGRONI " (by decide)⟩

